import Mathlib

/-!
Conditional parameter structures: `src/cond_params.h`.

The header declares two things:

* the class template `empty_struct<typename>`, an empty structure with an
  empty constructor and a universal (variadic) constructor;
* the variadic preprocessor definition
  `COND_STRUCT(some_cond, ...)`, whose replacement list is
  `conditional<bool(some_cond), __VA_ARGS__, empty_struct< __VA_ARGS__ > >::type`.

Both are compile-time constructs, so the embedding is a small model of C++
types: a type is a syntax tree, a template is a function on such trees, a
constructor is a function from an argument list to an object, and the
preprocessor definition is modelled twice, as the function on token lists it
is for the preprocessor and as the function on types its expansion denotes.
-/

namespace CondParams

/-! ## Types, members and objects -/

/-- Data member of a structure: its name and the spelling of its type. -/
structure Field where
  name : String
  type : String
deriving DecidableEq, Repr

/-- C++ class types that can be handed to `COND_STRUCT`.

* `component name fields` is a structure declared by the code that includes
  the header (the file comment calls it a specific, usually non-template,
  structure); `name` is the spelling of the type, `fields` its data members;
* `empty_struct T` is the specialization `empty_struct<T>` of the class
  template declared by the header. -/
inductive CppType where
  | component (name : String) (fields : List Field)
  | empty_struct (T : CppType)
deriving DecidableEq, Repr

export CppType (empty_struct)

/-- Data members declared by a type. The body of `empty_struct` declares two
constructors and nothing else, so every specialization has no member. -/
def CppType.members : CppType → List Field
  | .component _ fields => fields
  | .empty_struct _ => []

/-- Reasons for which a translation unit is rejected. -/
inductive BuildError where
  | no_member (type : CppType) (name : String)
deriving DecidableEq, Repr

/-- Member access `obj.m` on an object of type `T`: the declaration of `m`
when `T` declares it, a build error otherwise. -/
def CppType.member (T : CppType) (m : String) : Except BuildError Field :=
  match T.members.find? (fun f => f.name == m) with
  | some f => .ok f
  | none => .error (.no_member T m)

/-- Run-time values held by data members. -/
inductive Value where
  | int (n : Int)
  | float (bits : Nat)
  | bool (b : Bool)
  | pointer (address : Nat)
deriving DecidableEq, Repr

/-- State of an object: its type and the values of its data members. -/
structure Object where
  type : CppType
  state : List (String × Value)
deriving DecidableEq, Repr

/-- Constructor argument: a value of an arbitrary type. -/
abbrev Arg : Type 1 := Σ α : Type, α

/-- Constructor argument list, of any length. -/
abbrev Args : Type 1 := List Arg

/-! ## `empty_struct` -/

/-- The empty constructor `empty_struct() {}`: no member initializer, empty body. -/
def empty_constructor (T : CppType) : Object :=
  ⟨empty_struct T, []⟩

/-- The universal constructor
`template<typename ...T1> empty_struct(T1 const&...) {}`: the parameters are
unnamed, there is no member initializer and the body is empty. -/
def universal_constructor (T : CppType) (_ : Args) : Object :=
  ⟨empty_struct T, []⟩

/-- Direct initialization `X obj(args...)`.

For `empty_struct<T>` overload resolution takes the empty constructor for the
empty argument list (a non-template function is preferred over the variadic
template with an empty pack) and the universal constructor otherwise; the
implicit copy constructor, taken for one argument of type `empty_struct<T>`,
has no member to copy and yields the same object as the universal one. For a
component structure the constructors are those of the including code, passed
as `ctors`: they return the state of the data members, or `none` when no
constructor accepts the arguments. -/
def construct (ctors : CppType → Args → Option (List (String × Value))) :
    CppType → Args → Option Object
  | .empty_struct T, [] => some (empty_constructor T)
  | .empty_struct T, a :: as => some (universal_constructor T (a :: as))
  | .component name fields, args =>
    (ctors (.component name fields) args).map (fun s => ⟨.component name fields, s⟩)

/-! ## `COND_STRUCT` -/

/-- Value of the constant expression passed as `some_cond`: a `bool` (for
instance `boundarytype == SA_BOUNDARY`) or a value of integral type. -/
inductive Cond where
  | boolean (b : Bool)
  | integral (n : Int)
deriving DecidableEq, Repr

/-- The conversion `bool(some_cond)` of the replacement list. -/
def bool : Cond → Bool
  | .boolean b => b
  | .integral n => n != 0

/-- Modelled from the spec: the template `conditional<>` comes from
`cpp11_missing.h`, which is not among the sources; the header describes it as
`std::conditional` and the spec as the Selector: `conditional<B, T, F>::type`
is `T` when `B` holds and `F` otherwise. -/
def conditional (B : Bool) (T F : CppType) : CppType :=
  match B with
  | true => T
  | false => F

/-- The type denoted by `COND_STRUCT(some_cond, ...)`, that is by
`conditional<bool(some_cond), __VA_ARGS__, empty_struct< __VA_ARGS__ > >::type`,
where `va_args` is the type spelled by the variable arguments. -/
def COND_STRUCT (some_cond : Cond) (va_args : CppType) : CppType :=
  conditional (bool some_cond) va_args (empty_struct va_args)

/-! ## The preprocessor's view of `COND_STRUCT` -/

/-- Modelled from the spec: a specialization axis of a composed structure, the
pair of a condition and of the structure to include under it. The composed
structures themselves are declared by the code that includes the header. -/
structure Axis where
  predicate : Cond
  component : CppType
deriving DecidableEq, Repr

/-- Modelled from the spec: the base classes of a Composed Structure, which
the header's comment describes as a class derived from
`COND_STRUCT(condition, structure)` for each of its groups of members. The
declarations of such classes are not among the sources. -/
def composed_bases (axes : List Axis) : List CppType :=
  axes.map (fun a => COND_STRUCT a.predicate a.component)

/-- Modelled from the spec: the member set of a Composed Structure, the
members of its base classes in order (it declares none of its own). -/
def composed_members (axes : List Axis) : List Field :=
  (composed_bases axes).flatMap CppType.members

/-- Construction of the base class subobjects of a derived class, each from
the argument list its mem-initializer forwards to it; a base without
mem-initializer is constructed from the empty argument list. -/
def construct_bases (ctors : CppType → Args → Option (List (String × Value))) :
    List CppType → List Args → Option (List Object)
  | [], _ => some []
  | B :: Bs, args =>
    match construct ctors B (args.headD []), construct_bases ctors Bs args.tail with
    | some o, some os => some (o :: os)
    | _, _ => none

/-- Modelled from the spec: construction of a Composed Structure, which
forwards one argument list to the resolved type of every axis. -/
def composed_construct (ctors : CppType → Args → Option (List (String × Value)))
    (axes : List Axis) (args : List Args) : Option (List Object) :=
  construct_bases ctors (composed_bases axes) args

/-- The axes of a Composed Structure with the predicate of axis `j` replaced
by `c` (the list is unchanged when there is no axis `j`). -/
def set_predicate : List Axis → Nat → Cond → List Axis
  | [], _, _ => []
  | a :: axes, 0, c => ⟨c, a.component⟩ :: axes
  | a :: axes, j + 1, c => a :: set_predicate axes j c

/-! ## Shared lemmas -/

theorem COND_STRUCT_enabled {c : Cond} (h : bool c = true) (T : CppType) :
    COND_STRUCT c T = T := by
  simp [COND_STRUCT, conditional, h]

theorem COND_STRUCT_disabled {c : Cond} (h : bool c = false) (T : CppType) :
    COND_STRUCT c T = empty_struct T := by
  simp [COND_STRUCT, conditional, h]

theorem empty_struct_ne_self (T : CppType) : empty_struct T ≠ T := by
  induction T with
  | component name fields => intro h; cases h
  | empty_struct U ih => intro h; exact ih (CppType.empty_struct.inj h)

theorem construct_type {ctors : CppType → Args → Option (List (String × Value))}
    {B : CppType} {args : Args} {o : Object} (h : construct ctors B args = some o) :
    o.type = B := by
  cases B with
  | component name fields =>
    simp only [construct, Option.map_eq_some'] at h
    obtain ⟨s, -, rfl⟩ := h
    rfl
  | empty_struct T =>
    cases args with
    | nil => simp only [construct, Option.some.injEq] at h; rw [← h]; rfl
    | cons a as => simp only [construct, Option.some.injEq] at h; rw [← h]; rfl

theorem construct_bases_types {ctors : CppType → Args → Option (List (String × Value))}
    (Bs : List CppType) (args : List Args) (os : List Object)
    (h : construct_bases ctors Bs args = some os) : os.map Object.type = Bs := by
  induction Bs generalizing args os with
  | nil => simp only [construct_bases, Option.some.injEq] at h; rw [← h]; rfl
  | cons B Bs ih =>
    unfold construct_bases at h
    split at h
    · rename_i o os1 h1 h2
      simp only [Option.some.injEq] at h
      rw [← h, List.map_cons, construct_type h1, ih _ _ h2]
    · cases h

theorem composed_bases_getElem? (axes : List Axis) (i : Nat) :
    (composed_bases axes)[i]? = axes[i]?.map (fun a => COND_STRUCT a.predicate a.component) := by
  simp [composed_bases]

theorem set_predicate_getElem?_ne (axes : List Axis) (i j : Nat) (c : Cond) (h : i ≠ j) :
    (set_predicate axes j c)[i]? = axes[i]? := by
  induction axes generalizing i j with
  | nil => rfl
  | cons a axes ih =>
    cases j with
    | zero =>
      cases i with
      | zero => exact absurd rfl h
      | succ i => simp [set_predicate]
    | succ j =>
      cases i with
      | zero => simp [set_predicate]
      | succ i =>
        simp only [set_predicate, List.getElem?_cons_succ]
        exact ih i j (fun e => h (by rw [e]))

theorem composed_members_eq (axes : List Axis) :
    composed_members axes
      = axes.flatMap (fun a => if bool a.predicate = true then a.component.members else []) := by
  induction axes with
  | nil => rfl
  | cons a axes ih =>
    have ih1 : (composed_bases axes).flatMap CppType.members
        = axes.flatMap (fun a => if bool a.predicate = true then a.component.members else []) := ih
    cases hb : bool a.predicate <;>
      simp [composed_members, composed_bases, COND_STRUCT, conditional, hb, CppType.members] <;>
      simpa [composed_bases] using ih1

theorem COND_STRUCT_cases (c : Cond) (T : CppType) :
    COND_STRUCT c T = T ∨ COND_STRUCT c T = empty_struct T := by
  cases hb : bool c
  · exact Or.inr (COND_STRUCT_disabled hb T)
  · exact Or.inl (COND_STRUCT_enabled hb T)

theorem bool_integral (n : Int) : bool (.integral n) = true ↔ n ≠ 0 := by
  simp [bool]

theorem mem_composed_bases {axes : List Axis} {B : CppType} (h : B ∈ composed_bases axes) :
    ∃ a ∈ axes, B = a.component ∨ B = empty_struct a.component := by
  simp only [composed_bases, List.mem_map] at h
  obtain ⟨a, ha, rfl⟩ := h
  exact ⟨a, ha, COND_STRUCT_cases a.predicate a.component⟩

/-! ## Theorems -/

/-- C1: for every predicate value `b` and every component type `T`,
`COND_STRUCT(b, T)` is `T` itself when `b` is true and `empty_struct<T>` when
`b` is false. -/
theorem cond_struct_selects (b : Bool) (T : CppType) :
    COND_STRUCT (.boolean b) T = (if b = true then T else empty_struct T) ∧
    COND_STRUCT (.boolean true) T = T ∧
    COND_STRUCT (.boolean false) T = empty_struct T := by
  refine ⟨?_, rfl, rfl⟩
  cases b <;> rfl

/-- C3: for every component type `T` and enabled predicate the axis resolved
by `COND_STRUCT` is `T` itself: its members, every member access and the object
every constructor call yields are those of `T` used directly with the same
arguments. -/
theorem enabled_axis_is_component (c : Cond) (h : bool c = true) (T : CppType) :
    COND_STRUCT c T = T ∧
    (COND_STRUCT c T).members = T.members ∧
    (∀ m : String, (COND_STRUCT c T).member m = T.member m) ∧
    ∀ (ctors : CppType → Args → Option (List (String × Value))) (args : Args),
      construct ctors (COND_STRUCT c T) args = construct ctors T args := by
  rw [COND_STRUCT_enabled h]
  exact ⟨rfl, rfl, fun _ => rfl, fun _ _ => rfl⟩

/-- Witness of C3: an enabled axis `A` with members `x` and `y`. -/
theorem enabled_axis_is_component_witness :
    bool (.boolean true) = true ∧
    COND_STRUCT (.boolean true) (.component "A" [⟨"x", "int"⟩, ⟨"y", "int"⟩])
      = .component "A" [⟨"x", "int"⟩, ⟨"y", "int"⟩] :=
  ⟨rfl, (enabled_axis_is_component (.boolean true) rfl
    (.component "A" [⟨"x", "int"⟩, ⟨"y", "int"⟩])).1⟩

/-- C4: for every component type `T`, `empty_struct<T>` declares no member, so
no field of `T` is reachable through it: on a disabled axis every member
access is a build error, never a value. -/
theorem empty_substitute_has_no_member (c : Cond) (h : bool c = false) (T : CppType) :
    (empty_struct T).members = [] ∧
    (∀ m : String, (empty_struct T).member m = .error (.no_member (empty_struct T) m)) ∧
    (∀ m : String, (COND_STRUCT c T).member m = .error (.no_member (empty_struct T) m)) ∧
    ∀ (m : String) (f : Field), (COND_STRUCT c T).member m ≠ .ok f := by
  rw [COND_STRUCT_disabled h]
  refine ⟨rfl, fun _ => rfl, fun _ => rfl, fun m f e => ?_⟩
  have e2 : (empty_struct T).member m = .error (.no_member (empty_struct T) m) := rfl
  rw [e2] at e
  cases e

/-- Witness of C4: the member `z` of a disabled axis `B`. -/
theorem empty_substitute_has_no_member_witness :
    bool (.boolean false) = false ∧
    (CppType.component "B" [⟨"z", "float"⟩]).member "z" = .ok ⟨"z", "float"⟩ ∧
    (COND_STRUCT (.boolean false) (.component "B" [⟨"z", "float"⟩])).member "z"
      = .error (.no_member (empty_struct (.component "B" [⟨"z", "float"⟩])) "z") :=
  ⟨rfl, by simp [CppType.member, CppType.members], (empty_substitute_has_no_member (.boolean false) rfl
    (.component "B" [⟨"z", "float"⟩])).2.2.1 "z"⟩

/-- C5: in a Composed Structure every axis contributes exactly one base, which
is either its Component Structure or its Empty Substitute and never both; it is
the component exactly when the predicate holds, so the member set is that of
the enabled components, and every instance has the same bases. -/
theorem exactly_one_contributes (axes : List Axis) (i : Nat) (a : Axis)
    (h : axes[i]? = some a) :
    (∃ B : CppType, (composed_bases axes)[i]? = some B ∧
      (B = a.component ∨ B = empty_struct a.component) ∧
      ¬ (B = a.component ∧ B = empty_struct a.component) ∧
      (B = a.component ↔ bool a.predicate = true) ∧
      (B = empty_struct a.component ↔ bool a.predicate = false)) ∧
    (composed_bases axes).length = axes.length ∧
    composed_members axes
      = axes.flatMap (fun a => if bool a.predicate = true then a.component.members else []) ∧
    ∀ (ctors : CppType → Args → Option (List (String × Value))) (args : List Args)
      (objs : List Object), composed_construct ctors axes args = some objs →
      objs.map Object.type = composed_bases axes := by
  refine ⟨⟨COND_STRUCT a.predicate a.component, ?_, ?_⟩, ?_, composed_members_eq axes, ?_⟩
  · rw [composed_bases_getElem?, h]
    rfl
  · cases hb : bool a.predicate
    · rw [COND_STRUCT_disabled hb]
      exact ⟨Or.inr rfl, fun e => empty_struct_ne_self _ e.1,
        ⟨fun e => absurd e (empty_struct_ne_self _), fun e => by cases e⟩, ⟨fun _ => rfl, fun _ => rfl⟩⟩
    · rw [COND_STRUCT_enabled hb]
      exact ⟨Or.inl rfl, fun e => empty_struct_ne_self _ e.2.symm,
        ⟨fun _ => rfl, fun _ => rfl⟩, ⟨fun e => absurd e.symm (empty_struct_ne_self _), fun e => by cases e⟩⟩
  · simp [composed_bases]
  · intro ctors args objs hc
    exact construct_bases_types _ _ _ hc

/-- Witness of C5: axis 1 of the structure composed of `A` (enabled) and `B`
(disabled). -/
theorem exactly_one_contributes_witness :
    ([⟨.boolean true, .component "A" [⟨"x", "int"⟩, ⟨"y", "int"⟩]⟩,
      ⟨.boolean false, .component "B" [⟨"z", "float"⟩]⟩] : List Axis)[1]?
      = some ⟨.boolean false, .component "B" [⟨"z", "float"⟩]⟩ ∧
    composed_members [⟨.boolean true, .component "A" [⟨"x", "int"⟩, ⟨"y", "int"⟩]⟩,
      ⟨.boolean false, .component "B" [⟨"z", "float"⟩]⟩]
      = [⟨"x", "int"⟩, ⟨"y", "int"⟩] :=
  ⟨rfl, ((exactly_one_contributes
    [⟨.boolean true, .component "A" [⟨"x", "int"⟩, ⟨"y", "int"⟩]⟩,
      ⟨.boolean false, .component "B" [⟨"z", "float"⟩]⟩] 1
    ⟨.boolean false, .component "B" [⟨"z", "float"⟩]⟩ rfl).2.2.1).trans rfl⟩

/-- C9: axes are independent. The type resolved for axis `i` is
`COND_STRUCT` of predicate `i` and component `i`; replacing the predicate of
another axis `j` leaves it unchanged, and so does any change of the other
axes. -/
theorem axes_independent (axes : List Axis) (i j : Nat) (h : i ≠ j) (c : Cond) :
    (composed_bases axes)[i]? = axes[i]?.map (fun a => COND_STRUCT a.predicate a.component) ∧
    (composed_bases (set_predicate axes j c))[i]? = (composed_bases axes)[i]? ∧
    ∀ axes2 : List Axis, axes2[i]? = axes[i]? →
      (composed_bases axes2)[i]? = (composed_bases axes)[i]? := by
  refine ⟨composed_bases_getElem? axes i, ?_, fun axes2 h2 => ?_⟩
  · rw [composed_bases_getElem?, composed_bases_getElem?, set_predicate_getElem?_ne axes i j c h]
  · rw [composed_bases_getElem?, composed_bases_getElem?, h2]

/-- Witness of C9: disabling axis 1 (`B`) leaves axis 0 (`A`) as it was. -/
theorem axes_independent_witness :
    (0 : Nat) ≠ 1 ∧
    (composed_bases (set_predicate
      [⟨.boolean true, .component "A" [⟨"x", "int"⟩, ⟨"y", "int"⟩]⟩,
        ⟨.boolean true, .component "B" [⟨"z", "float"⟩]⟩] 1 (.boolean false)))[0]?
      = some (.component "A" [⟨"x", "int"⟩, ⟨"y", "int"⟩]) :=
  ⟨by decide, ((axes_independent
    [⟨.boolean true, .component "A" [⟨"x", "int"⟩, ⟨"y", "int"⟩]⟩,
      ⟨.boolean true, .component "B" [⟨"z", "float"⟩]⟩] 0 1 (by decide) (.boolean false)).2.1).trans rfl⟩

/-- C11: `COND_STRUCT` converts its condition with `bool(...)` before it
selects, so for a condition of integral value `n` it selects `T` if and only if
`n` is not zero and `empty_struct<T>` if and only if `n` is zero; two conditions
that are not zero select the same type. -/
theorem integral_condition_selects (n m : Int) (T : CppType) :
    (COND_STRUCT (.integral n) T = T ↔ n ≠ 0) ∧
    (COND_STRUCT (.integral n) T = empty_struct T ↔ n = 0) ∧
    (n ≠ 0 → m ≠ 0 → COND_STRUCT (.integral n) T = COND_STRUCT (.integral m) T) := by
  have hon : ∀ k : Int, k ≠ 0 → COND_STRUCT (.integral k) T = T :=
    fun k hk => COND_STRUCT_enabled ((bool_integral k).2 hk) T
  have hoff : COND_STRUCT (.integral 0) T = empty_struct T := rfl
  refine ⟨⟨fun e hn => ?_, hon n⟩, ⟨fun e => ?_, fun hn => by rw [hn, hoff]⟩,
    fun hn hm => by rw [hon n hn, hon m hm]⟩
  · rw [hn, hoff] at e
    exact empty_struct_ne_self T e
  · by_contra hn
    rw [hon n hn] at e
    exact empty_struct_ne_self T e.symm

/-- Witness of C11: the flag words 4 and 16 both select the component `A`,
the flag word 0 selects its substitute. -/
theorem integral_condition_selects_witness :
    (4 : Int) ≠ 0 ∧ (16 : Int) ≠ 0 ∧
    COND_STRUCT (.integral 4) (.component "A" [⟨"x", "int"⟩, ⟨"y", "int"⟩])
      = COND_STRUCT (.integral 16) (.component "A" [⟨"x", "int"⟩, ⟨"y", "int"⟩]) ∧
    COND_STRUCT (.integral 4) (.component "A" [⟨"x", "int"⟩, ⟨"y", "int"⟩])
      = .component "A" [⟨"x", "int"⟩, ⟨"y", "int"⟩] ∧
    COND_STRUCT (.integral 0) (.component "A" [⟨"x", "int"⟩, ⟨"y", "int"⟩])
      = empty_struct (.component "A" [⟨"x", "int"⟩, ⟨"y", "int"⟩]) :=
  ⟨by decide, by decide,
    (integral_condition_selects 4 16 (.component "A" [⟨"x", "int"⟩, ⟨"y", "int"⟩])).2.2
      (by decide) (by decide), rfl, rfl⟩

/-- C12, as amended: `empty_struct<T>` and `empty_struct<U>` are the same type
only if `T` and `U` are, and `empty_struct<T>` is never `T`; hence in a Composed
Structure whose component types are pairwise distinct, and of which none is the
Empty Substitute of another one, the resolved base types are pairwise distinct
for every combination of predicates. -/
theorem distinct_components_distinct_bases (axes : List Axis)
    (distinct : (axes.map Axis.component).Nodup)
    (separate : ∀ T ∈ axes.map Axis.component, ∀ U ∈ axes.map Axis.component,
      T ≠ empty_struct U) :
    (∀ T U : CppType, empty_struct T = empty_struct U → T = U) ∧
    (∀ T : CppType, empty_struct T ≠ T) ∧
    (composed_bases axes).Nodup := by
  refine ⟨fun T U e => CppType.empty_struct.inj e, empty_struct_ne_self, ?_⟩
  induction axes with
  | nil => exact List.nodup_nil
  | cons a axes ih =>
    simp only [List.map_cons, List.nodup_cons] at distinct
    have head_mem : a.component ∈ (a :: axes).map Axis.component := by simp
    have tail_mem : ∀ b ∈ axes, b.component ∈ (a :: axes).map Axis.component := by
      intro b hb
      simp only [List.map_cons, List.mem_cons, List.mem_map]
      exact Or.inr ⟨b, hb, rfl⟩
    have tail_sep : ∀ T ∈ axes.map Axis.component, ∀ U ∈ axes.map Axis.component,
        T ≠ empty_struct U := by
      intro T hT U hU
      exact separate T (List.mem_cons_of_mem _ hT) U (List.mem_cons_of_mem _ hU)
    have fresh : ∀ b ∈ axes, a.component ≠ b.component := by
      intro b hb e
      exact distinct.1 (e ▸ List.mem_map_of_mem Axis.component hb)
    show (COND_STRUCT a.predicate a.component :: composed_bases axes).Nodup
    refine List.nodup_cons.2 ⟨fun hmem => ?_, ih distinct.2 tail_sep⟩
    obtain ⟨b, hb, hB⟩ := mem_composed_bases hmem
    rcases COND_STRUCT_cases a.predicate a.component with e | e <;> rw [e] at hB
    · rcases hB with hB | hB
      · exact fresh b hb hB
      · exact separate _ head_mem _ (tail_mem b hb) hB
    · rcases hB with hB | hB
      · exact separate _ (tail_mem b hb) _ head_mem hB.symm
      · exact fresh b hb (CppType.empty_struct.inj hB)

/-- Witness of C12 as amended: the structure composed of `A` (enabled) and `B`
(disabled). -/
theorem distinct_components_distinct_bases_witness :
    (([⟨.boolean true, .component "A" [⟨"x", "int"⟩, ⟨"y", "int"⟩]⟩,
      ⟨.boolean false, .component "B" [⟨"z", "float"⟩]⟩] : List Axis).map Axis.component).Nodup ∧
    (composed_bases [⟨.boolean true, .component "A" [⟨"x", "int"⟩, ⟨"y", "int"⟩]⟩,
      ⟨.boolean false, .component "B" [⟨"z", "float"⟩]⟩]).Nodup :=
  ⟨by decide, (distinct_components_distinct_bases
    [⟨.boolean true, .component "A" [⟨"x", "int"⟩, ⟨"y", "int"⟩]⟩,
      ⟨.boolean false, .component "B" [⟨"z", "float"⟩]⟩] (by decide) (by decide)).2.2⟩

/-- Counterexample to C12 as stated: the component types `A` and
`empty_struct<A>` are distinct, and with the first axis disabled and the second
enabled both axes resolve to `empty_struct<A>`, a base inherited twice. -/
theorem distinct_components_same_base :
    (([⟨.boolean false, .component "A" [⟨"x", "int"⟩]⟩,
      ⟨.boolean true, empty_struct (.component "A" [⟨"x", "int"⟩])⟩] : List Axis).map
        Axis.component).Nodup ∧
    composed_bases [⟨.boolean false, .component "A" [⟨"x", "int"⟩]⟩,
      ⟨.boolean true, empty_struct (.component "A" [⟨"x", "int"⟩])⟩]
      = [empty_struct (.component "A" [⟨"x", "int"⟩]),
         empty_struct (.component "A" [⟨"x", "int"⟩])] ∧
    ¬ (composed_bases [⟨.boolean false, .component "A" [⟨"x", "int"⟩]⟩,
      ⟨.boolean true, empty_struct (.component "A" [⟨"x", "int"⟩])⟩]).Nodup := by
  refine ⟨by decide, rfl, ?_⟩
  decide

end CondParams
